import Mathlib

/-!
Shallow embedding of the espionage-reset tracking core of the spyv2 repository.

The embedded units are:
* `src/database/espionage_tracker.py` (class `EspionageTracker`): a SQLite
  database with four tables (`nations`, `espionage_status`, `reset_times`,
  `monitoring_queue`), modelled as lists of rows plus AUTOINCREMENT counters.
* `src/utils/espionage_monitor.py` (class `EspionageMonitor`): indexing and
  the per-entity monitoring step.
* `src/utils/nation_collector.py` (class `NationCollector`): the alliance
  collector and the manual per-nation update step.

Timestamps (`CURRENT_TIMESTAMP`, `datetime.utcnow()`) are modelled as integer
epoch seconds passed in explicitly as `now`.  Python dictionary accesses of
the form `d.get(key, default)` are modelled with `Option` fields and `getD`.
-/

namespace SpyV2

/-- A row of the `nations` table.  Column defaults from the schema:
`last_updated TIMESTAMP DEFAULT CURRENT_TIMESTAMP`, `is_active BOOLEAN
DEFAULT 1`.  Nullable columns are `Option`. -/
structure Nation where
  id : Int
  nation_name : String
  leader_name : Option String
  alliance_id : Option Int
  alliance_name : Option String
  score : Option Int
  cities : Option Int
  last_updated : Int
  is_active : Bool
deriving DecidableEq, Repr

/-- A row of the `espionage_status` table (append-only status history).
`rowid` models the AUTOINCREMENT primary key `id`. -/
structure StatusRow where
  rowid : Nat
  nation_id : Int
  espionage_available : Bool
  beige_turns : Int
  vacation_mode_turns : Int
  last_active : Option String
  checked_at : Int
deriving DecidableEq, Repr

/-- A row of the `reset_times` table.  `confidence_level REAL DEFAULT 1.0`
is modelled as a rational. -/
structure ResetRow where
  rowid : Nat
  nation_id : Int
  reset_time : Int
  confidence_level : Rat
  detection_method : String
  verified : Bool
  created_at : Int
deriving DecidableEq, Repr

/-- A row of the `monitoring_queue` table.  Schema:
`id INTEGER PRIMARY KEY AUTOINCREMENT, nation_id INTEGER, reason TEXT,
added_at TIMESTAMP, next_check TIMESTAMP, priority INTEGER DEFAULT 1`.
Note that `nation_id` carries no UNIQUE constraint. -/
structure QueueRow where
  rowid : Nat
  nation_id : Int
  reason : String
  added_at : Int
  next_check : Int
  priority : Int
deriving DecidableEq, Repr

/-- The persistent state: the four tables plus the next AUTOINCREMENT rowid
of each table that has one. -/
structure DB where
  nations : List Nation
  espionage_status : List StatusRow
  reset_times : List ResetRow
  monitoring_queue : List QueueRow
  next_status_rowid : Nat
  next_reset_rowid : Nat
  next_queue_rowid : Nat
deriving DecidableEq, Repr

/-- The freshly initialised database (`init_database`): all tables empty. -/
def emptyDB : DB :=
  { nations := [], espionage_status := [], reset_times := [],
    monitoring_queue := [], next_status_rowid := 1, next_reset_rowid := 1,
    next_queue_rowid := 1 }

/-- `INSERT OR REPLACE INTO nations` keyed by the `id` PRIMARY KEY: the
conflicting row (if any) is deleted and the new row inserted. -/
def upsertNationRow (l : List Nation) (n : Nation) : List Nation :=
  l.filter (fun m => m.id != n.id) ++ [n]

/-- Plain `INSERT INTO espionage_status`; the AUTOINCREMENT counter assigns
the rowid. -/
def insertStatusRow (db : DB) (nation_id : Int) (espionage_available : Bool)
    (beige_turns vacation_mode_turns : Int) (last_active : Option String)
    (now : Int) : DB :=
  { db with
    espionage_status := db.espionage_status ++
      [{ rowid := db.next_status_rowid, nation_id := nation_id,
         espionage_available := espionage_available,
         beige_turns := beige_turns,
         vacation_mode_turns := vacation_mode_turns,
         last_active := last_active, checked_at := now }],
    next_status_rowid := db.next_status_rowid + 1 }

/-- Plain `INSERT INTO reset_times`; `confidence_level` takes its schema
default `1.0` and `verified` its default `0`. -/
def insertResetRow (db : DB) (nation_id reset_time : Int) (method : String)
    (now : Int) : DB :=
  { db with
    reset_times := db.reset_times ++
      [{ rowid := db.next_reset_rowid, nation_id := nation_id,
         reset_time := reset_time, confidence_level := 1,
         detection_method := method, verified := false, created_at := now }],
    next_reset_rowid := db.next_reset_rowid + 1 }

/-- `INSERT OR REPLACE INTO monitoring_queue (nation_id, reason, next_check,
added_at)`.  The table's only uniqueness constraint is the AUTOINCREMENT
`id` primary key, which is omitted from the column list and therefore freshly
assigned, so the `OR REPLACE` clause never fires: the statement behaves as a
plain insert.  `priority` takes its default `1`. -/
def insertQueueRow (db : DB) (nation_id : Int) (reason : String)
    (next_check now : Int) : DB :=
  { db with
    monitoring_queue := db.monitoring_queue ++
      [{ rowid := db.next_queue_rowid, nation_id := nation_id,
         reason := reason, added_at := now, next_check := next_check,
         priority := 1 }],
    next_queue_rowid := db.next_queue_rowid + 1 }

/-- `DELETE FROM monitoring_queue WHERE nation_id = ?`. -/
def deleteQueueRows (db : DB) (nation_id : Int) : DB :=
  { db with
    monitoring_queue := db.monitoring_queue.filter
      (fun q => q.nation_id != nation_id) }

/-- `UPDATE monitoring_queue SET next_check = ? WHERE nation_id = ?`. -/
def updateQueueNext (db : DB) (nation_id next_check : Int) : DB :=
  { db with
    monitoring_queue := db.monitoring_queue.map
      (fun q => if q.nation_id == nation_id
                then { q with next_check := next_check } else q) }

/-- Input of `EspionageTracker.add_nation`: the nation dictionary, with
`Option` for keys read via `.get`. -/
structure NationData where
  id : Int
  nation_name : String
  leader_name : Option String
  alliance_id : Option Int
  alliance_name : Option String
  score : Option Int
  num_cities : Option Int
deriving DecidableEq, Repr

/-- `EspionageTracker.add_nation` (success path): `INSERT OR REPLACE INTO
nations`, omitting `is_active`, which therefore takes its default `1` on the
replacing row. -/
def add_nation (db : DB) (d : NationData) (now : Int) : DB :=
  let row : Nation :=
    { id := d.id, nation_name := d.nation_name,
      leader_name := d.leader_name, alliance_id := d.alliance_id,
      alliance_name := d.alliance_name, score := d.score,
      cities := d.num_cities, last_updated := now, is_active := true }
  { db with nations := upsertNationRow db.nations row }

/-- Input of `EspionageTracker.update_espionage_status`: the `status_data`
dictionary; every key is read via `.get` with a default. -/
structure StatusData where
  espionage_available : Option Bool
  beige_turns : Option Int
  vacation_mode_turns : Option Int
  last_active : Option String
deriving DecidableEq, Repr

/-- `EspionageTracker.update_espionage_status` (success path): one insert
into `espionage_status`.  A missing `espionage_available` key defaults to
`True`; missing turn counts default to `0`. -/
def update_espionage_status (db : DB) (nation_id : Int) (d : StatusData)
    (now : Int) : DB :=
  insertStatusRow db nation_id (d.espionage_available.getD true)
    (d.beige_turns.getD 0) (d.vacation_mode_turns.getD 0) d.last_active now

/-- `EspionageTracker.add_to_monitoring_queue` (success path): next check is
2 hours (7200 s) from now; see `insertQueueRow` for why the insert never
replaces. -/
def add_to_monitoring_queue (db : DB) (nation_id : Int) (reason : String)
    (now : Int) : DB :=
  insertQueueRow db nation_id reason (now + 7200) now

/-- `EspionageTracker.record_reset_time` (success path): insert the reset
fact, then delete the nation's queue rows. -/
def record_reset_time (db : DB) (nation_id reset_time : Int)
    (detection_method : String) (now : Int) : DB :=
  deleteQueueRows (insertResetRow db nation_id reset_time detection_method now)
    nation_id

/-- `EspionageTracker.stop_monitoring_nation` (success path). -/
def stop_monitoring_nation (db : DB) (nation_id : Int) : DB :=
  deleteQueueRows db nation_id

/-- The row selected by `ORDER BY checked_at DESC LIMIT 1`: the maximum by
`checked_at`, with the larger rowid preferred among equal timestamps (rows
inserted later have larger rowids). -/
def maxStatus : List StatusRow → Option StatusRow
  | [] => none
  | x :: xs =>
    match maxStatus xs with
    | none => some x
    | some m =>
      if x.checked_at < m.checked_at ∨
         (x.checked_at = m.checked_at ∧ x.rowid ≤ m.rowid)
      then some m else some x

/-- The latest `espionage_status` row of a nation (the `last_status` query in
`record_espionage_status`). -/
def lastStatus (db : DB) (nation_id : Int) : Option StatusRow :=
  maxStatus (db.espionage_status.filter (fun r => r.nation_id == nation_id))

/-- The `reset_detected` decision of `record_espionage_status`: the stored
snapshot exists, was unavailable, and the new observation is available. -/
def resetDetected (db : DB) (nation_id : Int)
    (espionage_available : Bool) : Bool :=
  match lastStatus db nation_id with
  | some s => !s.espionage_available && espionage_available
  | none => false

/-- `EspionageTracker.record_espionage_status` (success path).  Reads the
latest snapshot; a prior `espionage_available = 0` together with a new
`True` detects a reset (fact with method `protection_to_available`, reset
time `now`).  The new snapshot is always inserted (with `last_active` NULL,
as that column is absent from this insert).  When no reset was detected the
nation's queue rows are re-armed to `now + 6` hours (21600 s).  Returns the
updated state and `reset_detected`. -/
def record_espionage_status (db : DB) (nation_id : Int)
    (espionage_available : Bool) (beige_turns vacation_mode_turns : Int)
    (now : Int) : DB × Bool :=
  if resetDetected db nation_id espionage_available then
    (insertStatusRow (insertResetRow db nation_id now
        "protection_to_available" now) nation_id espionage_available
      beige_turns vacation_mode_turns none now, true)
  else
    (updateQueueNext (insertStatusRow db nation_id espionage_available
        beige_turns vacation_mode_turns none now) nation_id (now + 21600),
     false)

/-- `EspionageTracker.add_or_update_nation` (success path): upsert the
nation (leader, score and cities absent from the column list, hence NULL on
the replacing row; `is_active` written as `1`), then, when monitoring is
requested and no reset fact exists yet, insert a queue row due in 1 hour
(3600 s) with reason `new_nation_monitoring`. -/
def add_or_update_nation (db : DB) (nation_id : Int) (nation_name : String)
    (alliance_id : Option Int) (alliance_name : String)
    (should_monitor : Bool) (now : Int) : DB :=
  let row : Nation :=
    { id := nation_id, nation_name := nation_name, leader_name := none,
      alliance_id := alliance_id, alliance_name := some alliance_name,
      score := none, cities := none, last_updated := now,
      is_active := true }
  let db1 : DB := { db with nations := upsertNationRow db.nations row }
  if should_monitor &&
     !(db.reset_times.any (fun r => r.nation_id == nation_id))
  then insertQueueRow db1 nation_id "new_nation_monitoring" (now + 3600) now
  else db1

/-- `EspionageTracker.cleanup_monitoring_queue` (success path): delete queue
rows whose nation row is alliance-less (`alliance_id IS NULL`) or inactive,
then delete queue rows whose nation already has a reset fact.  Returns the
new state and `cursor.rowcount`, i.e. the number of rows deleted by the
second statement. -/
def cleanup_monitoring_queue (db : DB) : DB × Int :=
  let q1 := db.monitoring_queue.filter
    (fun q => !(db.nations.any
      (fun n => n.id == q.nation_id &&
        (n.alliance_id.isNone || n.is_active == false))))
  let q2 := q1.filter
    (fun q => !(db.reset_times.any (fun r => r.nation_id == q.nation_id)))
  ({ db with monitoring_queue := q2 }, (q1.length : Int) - (q2.length : Int))

/-- Whether some `nations` row has the given id (the effect of
`JOIN nations n ON mq.nation_id = n.id`). -/
def nationJoin (db : DB) (nation_id : Int) : Bool :=
  db.nations.any (fun n => n.id == nation_id)

/-- Whether some active `nations` row has the given id (the join of
`get_nations_needing_monitoring`, which also filters `n.is_active = 1`). -/
def activeNationJoin (db : DB) (nation_id : Int) : Bool :=
  db.nations.any (fun n => n.id == nation_id && n.is_active)

/-- `ORDER BY mq.priority DESC, mq.next_check ASC` as a relation on queue
rows. -/
def queueOrder (a b : QueueRow) : Prop :=
  b.priority < a.priority ∨
    (a.priority = b.priority ∧ a.next_check ≤ b.next_check)

instance : DecidableRel queueOrder := fun a b => by
  unfold queueOrder; infer_instance

instance : IsTotal QueueRow queueOrder := by
  constructor
  intro a b
  rcases lt_trichotomy a.priority b.priority with h | h | h
  · exact Or.inr (Or.inl h)
  · rcases le_total a.next_check b.next_check with h2 | h2
    · exact Or.inl (Or.inr ⟨h, h2⟩)
    · exact Or.inr (Or.inr ⟨h.symm, h2⟩)
  · exact Or.inl (Or.inl h)

instance : IsTrans QueueRow queueOrder := by
  constructor
  intro a b c hab hbc
  rcases hab with h1 | ⟨h1, h1'⟩
  · rcases hbc with h2 | ⟨h2, _⟩
    · exact Or.inl (h2.trans h1)
    · exact Or.inl (h2 ▸ h1)
  · rcases hbc with h2 | ⟨h2, h2'⟩
    · exact Or.inl (h1 ▸ h2)
    · exact Or.inr ⟨h1.trans h2, h1'.trans h2'⟩

/-- The sorted due list underlying both monitor queries. -/
def dueSorted (db : DB) (now : Int) (join : DB → Int → Bool) :
    List QueueRow :=
  List.insertionSort queueOrder
    (db.monitoring_queue.filter
      (fun q => decide (q.next_check ≤ now) && join db q.nation_id))

/-- The `nation_name` produced by the join (unique per id when the primary
key invariant holds). -/
def joinedName (db : DB) (nation_id : Int) : String :=
  ((db.nations.find? (fun n => n.id == nation_id)).map
    (fun n => n.nation_name)).getD ""

/-- Result row shape of `get_nations_to_monitor`. -/
structure MonitorItem where
  nation_id : Int
  nation_name : String
  reason : String
  next_check : Int
deriving DecidableEq, Repr

/-- `EspionageTracker.get_nations_to_monitor` (success path): due queue
entries joined with `nations`, ordered by priority descending then
next-check ascending, capped at `LIMIT 50`. -/
def get_nations_to_monitor (db : DB) (now : Int) : List MonitorItem :=
  ((dueSorted db now nationJoin).take 50).map
    (fun q => { nation_id := q.nation_id,
                nation_name := joinedName db q.nation_id,
                reason := q.reason, next_check := q.next_check })

/-- Result row shape of `get_nations_needing_monitoring`. -/
structure MonitorItem2 where
  nation_id : Int
  nation_name : String
  alliance_name : Option String
  next_check : Int
deriving DecidableEq, Repr

/-- `EspionageTracker.get_nations_needing_monitoring` (success path): like
`get_nations_to_monitor` but additionally requiring `n.is_active = 1` and
capped at `LIMIT 100`. -/
def get_nations_needing_monitoring (db : DB) (now : Int) : List MonitorItem2 :=
  ((dueSorted db now activeNationJoin).take 100).map
    (fun q => { nation_id := q.nation_id,
                nation_name := joinedName db q.nation_id,
                alliance_name :=
                  ((db.nations.find? (fun n => n.id == q.nation_id)).map
                    (fun n => n.alliance_name)).getD none,
                next_check := q.next_check })

/-- Result row shape of `get_nation_reset_times` / `get_alliance_nations`
joins. -/
structure ResetItem where
  nation_id : Int
  nation_name : String
  reset_time : Int
  confidence_level : Rat
  detection_method : String
  verified : Bool
  created_at : Int
deriving DecidableEq, Repr

/-- Projection of a `reset_times` row through the `nations` join. -/
def resetItemOf (db : DB) (r : ResetRow) : ResetItem :=
  { nation_id := r.nation_id, nation_name := joinedName db r.nation_id,
    reset_time := r.reset_time, confidence_level := r.confidence_level,
    detection_method := r.detection_method, verified := r.verified,
    created_at := r.created_at }

/-- `ORDER BY rt.created_at DESC`. -/
def resetOrder (a b : ResetRow) : Prop := b.created_at ≤ a.created_at

instance : DecidableRel resetOrder := fun a b => by
  unfold resetOrder; infer_instance

/-- `EspionageTracker.get_nation_reset_times` (success path).  With a
truthy `nation_id` (Python: `if nation_id:`, so `0` behaves as absent) the
rows of that nation, else all rows capped at `LIMIT 100`; both joined with
`nations` and ordered by `created_at` descending. -/
def get_nation_reset_times (db : DB) (nation_id : Option Int) :
    List ResetItem :=
  match nation_id with
  | some nid =>
    if nid == 0 then
      (((List.insertionSort resetOrder
        (db.reset_times.filter (fun r => nationJoin db r.nation_id))).take
          100).map (resetItemOf db))
    else
      ((List.insertionSort resetOrder
        (db.reset_times.filter
          (fun r => r.nation_id == nid && nationJoin db r.nation_id))).map
        (resetItemOf db))
  | none =>
    (((List.insertionSort resetOrder
      (db.reset_times.filter (fun r => nationJoin db r.nation_id))).take
        100).map (resetItemOf db))

/-- `EspionageTracker.get_alliance_nations` (success path): active nations
with `alliance_id > 0` (NULL compares false), optionally restricted to one
alliance; score ordering is irrelevant to the claims and elided into the
filter order. -/
def get_alliance_nations (db : DB) (alliance_id : Option Int) : List Nation :=
  match alliance_id with
  | some aid =>
    if aid == 0 then
      db.nations.filter
        (fun n => decide (n.alliance_id.getD 0 > 0) && n.is_active)
    else
      db.nations.filter
        (fun n => n.alliance_id == some aid &&
          decide (n.alliance_id.getD 0 > 0) && n.is_active)
  | none =>
    db.nations.filter
      (fun n => decide (n.alliance_id.getD 0 > 0) && n.is_active)

/-- Result shape of `get_stats`. -/
structure Stats where
  total_nations : Nat
  monitoring_count : Nat
  reset_times_detected : Nat
  recent_checks_24h : Nat
deriving DecidableEq, Repr

/-- `EspionageTracker.get_stats` (success path): active alliance nations
(`alliance_id > 0`), queue size, reset-fact count, and snapshots from the
last 24 hours (86400 s). -/
def get_stats (db : DB) (now : Int) : Stats :=
  { total_nations :=
      (db.nations.filter
        (fun n => decide (n.alliance_id.getD 0 > 0) && n.is_active)).length,
    monitoring_count := db.monitoring_queue.length,
    reset_times_detected := db.reset_times.length,
    recent_checks_24h :=
      (db.espionage_status.filter
        (fun r => decide (r.checked_at > now - 86400))).length }

/-- Result shape of `get_database_stats`. -/
structure DbStats where
  total_nations : Nat
  monitoring_count : Nat
  reset_times_detected : Nat
  recent_checks_24h : Nat
  unique_nations_with_resets : Nat
deriving DecidableEq, Repr

/-- `EspionageTracker.get_database_stats` (success path): like `get_stats`
(`alliance_id IS NOT NULL` instead of `> 0`) plus the count of distinct
nations with reset facts. -/
def get_database_stats (db : DB) (now : Int) : DbStats :=
  { total_nations :=
      (db.nations.filter
        (fun n => !n.alliance_id.isNone && n.is_active)).length,
    monitoring_count := db.monitoring_queue.length,
    reset_times_detected := db.reset_times.length,
    recent_checks_24h :=
      (db.espionage_status.filter
        (fun r => decide (r.checked_at > now - 86400))).length,
    unique_nations_with_resets :=
      ((db.reset_times.map (fun r => r.nation_id)).dedup).length }

/-- The GraphQL per-nation status object used by the monitoring cycle
(`check_nation_espionage_status`).  `espionage_available` is accessed with
plain indexing (`current_status['espionage_available']`), not `.get`, so it
is a required field here. -/
structure StatusFetch where
  id : Int
  espionage_available : Bool
  beige_turns : Option Int
  vacation_mode_turns : Option Int
deriving DecidableEq, Repr

/-- One per-nation step of `EspionageMonitor.monitoring_cycle`: on a
successful fetch, record the status via
`EspionageTracker.record_espionage_status`; when a reset was detected, stop
monitoring the nation (`stop_monitoring_nation`).  A failed fetch (`None`)
leaves the state untouched. -/
def monitorCheckStep (db : DB) (nation_id : Int) (fetch : Option StatusFetch)
    (now : Int) : DB :=
  match fetch with
  | none => db
  | some s =>
    let r := record_espionage_status db nation_id s.espionage_available
      (s.beige_turns.getD 0) (s.vacation_mode_turns.getD 0) now
    if r.2 then stop_monitoring_nation r.1 nation_id else r.1

/-- A GraphQL nation object as the indexer/collector receive it; keys read
via `.get` are `Option`. -/
structure ApiNation where
  id : Int
  nation_name : String
  leader_name : Option String
  alliance_id : Option Int
  alliance_name : Option String
  score : Option Int
  num_cities : Option Int
  espionage_available : Option Bool
  beige_turns : Option Int
  vacation_mode_turns : Option Int
  last_active : Option String
deriving DecidableEq, Repr

/-- One per-nation step of `EspionageMonitor.index_all_nations`: skip when
`alliance_id` is falsy (absent, `None` or `0`) or `vacation_mode_turns > 0`;
otherwise upsert via `add_or_update_nation` with `alliance_name` the empty
string and monitoring requested.  Returns the state and whether the nation
was admitted (counted in `alliance_nations`). -/
def indexNationStep (db : DB) (n : ApiNation) (now : Int) : DB × Bool :=
  match n.alliance_id with
  | none => (db, false)
  | some aid =>
    if aid == 0 then (db, false)
    else if n.vacation_mode_turns.getD 0 > 0 then (db, false)
    else (add_or_update_nation db n.id n.nation_name (some aid) "" true now,
          true)

/-- One page of `index_all_nations`: fold the per-nation step over the page,
counting `total_nations` (every nation seen) and `alliance_nations` (the
admitted ones). -/
def indexPage (db : DB) (ns : List ApiNation) (now : Int) : DB × Nat × Nat :=
  ns.foldl
    (fun acc n =>
      let r := indexNationStep acc.1 n now
      (r.1, acc.2.1 + 1, acc.2.2 + (if r.2 then 1 else 0)))
    (db, 0, 0)

/-- One per-nation step of `NationCollector.collect_all_alliance_nations`
(applied to nations with `alliance_id > 0`): `add_nation`, then
`update_espionage_status`, then, when `espionage_available` (default `True`)
is false, enqueue with a reason derived from beige/vacation turns. -/
def collectNationStep (db : DB) (n : ApiNation) (now : Int) : DB :=
  let db1 := add_nation db
    { id := n.id, nation_name := n.nation_name, leader_name := n.leader_name,
      alliance_id := n.alliance_id, alliance_name := n.alliance_name,
      score := n.score, num_cities := n.num_cities } now
  let db2 := update_espionage_status db1 n.id
    { espionage_available := some (n.espionage_available.getD true),
      beige_turns := some (n.beige_turns.getD 0),
      vacation_mode_turns := some (n.vacation_mode_turns.getD 0),
      last_active := n.last_active } now
  if !(n.espionage_available.getD true) then
    let reason :=
      if n.beige_turns.getD 0 > 0 then "beige_protection"
      else if n.vacation_mode_turns.getD 0 > 0 then "vacation_mode"
      else "initially_protected"
    add_to_monitoring_queue db2 n.id reason now
  else db2

/-- One page of `collect_all_alliance_nations`: keep nations with
`alliance_id > 0` (`.get` default `0`), then run the per-nation step. -/
def collectPage (db : DB) (ns : List ApiNation) (now : Int) : DB :=
  (ns.filter (fun n => decide (n.alliance_id.getD 0 > 0))).foldl
    (fun acc n => collectNationStep acc n now) db

/-- One per-nation step of `NationCollector.update_specific_nations` (the
manual-check path): append the status snapshot, then, whenever
`espionage_available` (default `True`) is true, record a reset fact with
method `monitoring_check` and reset time `now` — without consulting any
prior snapshot. -/
def updateSpecificStep (db : DB) (n : ApiNation) (now : Int) : DB :=
  let avail := n.espionage_available.getD true
  let db1 := update_espionage_status db n.id
    { espionage_available := some avail,
      beige_turns := some (n.beige_turns.getD 0),
      vacation_mode_turns := some (n.vacation_mode_turns.getD 0),
      last_active := n.last_active } now
  if avail then record_reset_time db1 n.id now "monitoring_check" now else db1

/-- Result shape of the effective `EspionageMonitor.get_monitoring_stats`
(the second definition of that name, which shadows the first): the tracker's
`get_stats` plus loop flags and next scheduled times. -/
structure MonitoringStats where
  total_nations : Nat
  monitoring_count : Nat
  reset_times_detected : Nat
  recent_checks_24h : Nat
  is_running : Bool
  last_full_scan : Option Int
  next_monitoring_cycle : Int
  next_full_rescan : Int
deriving DecidableEq, Repr

/-- `EspionageMonitor.get_monitoring_stats` (effective second definition):
`get_stats` extended with the running flag, the last full scan, and next
scheduled times at +2 h and +24 h. -/
def get_monitoring_stats (db : DB) (is_running : Bool)
    (last_full_scan : Option Int) (now : Int) : MonitoringStats :=
  let s := get_stats db now
  { total_nations := s.total_nations,
    monitoring_count := s.monitoring_count,
    reset_times_detected := s.reset_times_detected,
    recent_checks_24h := s.recent_checks_24h,
    is_running := is_running, last_full_scan := last_full_scan,
    next_monitoring_cycle := now + 7200, next_full_rescan := now + 86400 }

/-- Hour-of-day of an epoch timestamp (`datetime.fromisoformat(...).hour`
for the UTC timestamps the system writes). -/
def hourOf (t : Int) : Int := (t / 3600) % 24

/-- `ORDER BY reset_time` ascending (`reset_times.sort(key=...)`). -/
def resetTimeOrder (a b : ResetItem) : Prop := a.reset_time ≤ b.reset_time

instance : DecidableRel resetTimeOrder := fun a b => by
  unfold resetTimeOrder; infer_instance

/-- Result shape of `get_reset_time_report`. -/
structure ResetReport where
  total_reset_times_detected : Nat
  unique_nations_with_resets : Nat
  hourly_distribution : List (Int × Nat)
  recent_detections : List ResetItem
deriving DecidableEq, Repr

/-- `EspionageMonitor.get_reset_time_report` (success path): all reset
items, optionally restricted to one alliance's nations, sorted by reset
time; totals, distinct-nation count, per-hour histogram and the last 10
detections. -/
def get_reset_time_report (db : DB) (alliance_id : Option Int) :
    ResetReport :=
  let items0 := get_nation_reset_times db none
  let items1 :=
    match alliance_id with
    | some aid =>
      let ids := (get_alliance_nations db (some aid)).map (fun n => n.id)
      items0.filter (fun it => ids.contains it.nation_id)
    | none => items0
  let items := List.insertionSort resetTimeOrder items1
  let hours := items.map (fun it => hourOf it.reset_time)
  { total_reset_times_detected := items.length,
    unique_nations_with_resets :=
      ((items.map (fun it => it.nation_id)).dedup).length,
    hourly_distribution :=
      hours.dedup.map (fun h => (h, (hours.filter (fun x => x == h)).length)),
    recent_detections := items.drop (items.length - 10) }

/-!
## Transaction layer

Every mutating method of `EspionageTracker` opens one
`with sqlite3.connect(...)` block, executes its statements, calls
`conn.commit()` last and catches every exception, returning `False`.  The
`with` block rolls the transaction back when an exception escapes it, so a
failing run publishes nothing.  `runTxn` models one such method run: the
statement list of the method, and an optional index at which an exception is
raised (`some k` fails after `k` statements have executed on the scratch
state; an index past the end models a failure at commit time).
-/

/-- The SQL statements the five mutating operations are built from. -/
inductive Stmt where
  | upsertNation : Nation → Stmt
  | insertStatus : Int → Bool → Int → Int → Option String → Int → Stmt
  | insertReset : Int → Int → String → Int → Stmt
  | insertQueue : Int → String → Int → Int → Stmt
  | deleteQueue : Int → Stmt
deriving DecidableEq, Repr

/-- Effect of one statement on the (scratch) state. -/
def applyStmt (db : DB) : Stmt → DB
  | .upsertNation n => { db with nations := upsertNationRow db.nations n }
  | .insertStatus nid avail b v la now => insertStatusRow db nid avail b v la now
  | .insertReset nid t m now => insertResetRow db nid t m now
  | .insertQueue nid reason next now => insertQueueRow db nid reason next now
  | .deleteQueue nid => deleteQueueRows db nid

/-- Execute the statements of one transaction on the scratch state,
aborting with `none` when the failure index is reached (`some 0` with
statements remaining models a failing statement; `some 0` at the end models
a failure at commit). -/
def runStmts : DB → List Stmt → Option Nat → Option DB
  | _, _, some 0 => none
  | db, [], _ => some db
  | db, s :: rest, failAt => runStmts (applyStmt db s) rest (failAt.map Nat.pred)

/-- One run of a mutating method: on completion the scratch state is
committed and `True` returned; on an exception the `with` block rolls back
(the caller keeps the pre-call state) and the handler returns `False`. -/
def runTxn (db : DB) (stmts : List Stmt) (failAt : Option Nat) : DB × Bool :=
  match runStmts db stmts failAt with
  | some db2 => (db2, true)
  | none => (db, false)

/-- Statement list of `add_nation`. -/
def addNationStmts (d : NationData) (now : Int) : List Stmt :=
  [Stmt.upsertNation
    { id := d.id, nation_name := d.nation_name,
      leader_name := d.leader_name, alliance_id := d.alliance_id,
      alliance_name := d.alliance_name, score := d.score,
      cities := d.num_cities, last_updated := now, is_active := true }]

/-- Statement list of `update_espionage_status`. -/
def updateEspionageStatusStmts (nation_id : Int) (d : StatusData)
    (now : Int) : List Stmt :=
  [Stmt.insertStatus nation_id (d.espionage_available.getD true)
    (d.beige_turns.getD 0) (d.vacation_mode_turns.getD 0) d.last_active now]

/-- Statement list of `add_to_monitoring_queue`. -/
def addToMonitoringQueueStmts (nation_id : Int) (reason : String)
    (now : Int) : List Stmt :=
  [Stmt.insertQueue nation_id reason (now + 7200) now]

/-- Statement list of `record_reset_time`. -/
def recordResetTimeStmts (nation_id reset_time : Int) (method : String)
    (now : Int) : List Stmt :=
  [Stmt.insertReset nation_id reset_time method now,
   Stmt.deleteQueue nation_id]

/-- Statement list of `stop_monitoring_nation`. -/
def stopMonitoringStmts (nation_id : Int) : List Stmt :=
  [Stmt.deleteQueue nation_id]

/-!
## Helper lemmas
-/

/-- `resetDetected` spelled out as a proposition. -/
lemma resetDetected_iff (db : DB) (nid : Int) (avail : Bool) :
    resetDetected db nid avail = true ↔
      avail = true ∧ ∃ s, lastStatus db nid = some s ∧
        s.espionage_available = false := by
  unfold resetDetected
  cases h : lastStatus db nid with
  | none => simp
  | some s =>
    simp only [Bool.and_eq_true, Bool.not_eq_true', Option.some.injEq]
    constructor
    · rintro ⟨h1, h2⟩
      exact ⟨h2, s, rfl, h1⟩
    · rintro ⟨h2, t, ht, h1⟩
      exact ⟨ht ▸ h1, h2⟩

/-- `record_espionage_status` reports detection in its second component. -/
lemma record_snd (db : DB) (nid : Int) (avail : Bool) (b v now : Int) :
    (record_espionage_status db nid avail b v now).2 =
      resetDetected db nid avail := by
  unfold record_espionage_status
  by_cases h : resetDetected db nid avail = true
  · rw [if_pos h, h]
  · rw [if_neg h]
    rw [Bool.not_eq_true] at h
    rw [h]

/-- The reset-fact table after `record_espionage_status`: one new fact when
a reset was detected, unchanged otherwise. -/
lemma record_reset_times (db : DB) (nid : Int) (avail : Bool)
    (b v now : Int) :
    (record_espionage_status db nid avail b v now).1.reset_times =
      if resetDetected db nid avail then
        db.reset_times ++
          [{ rowid := db.next_reset_rowid, nation_id := nid,
             reset_time := now, confidence_level := 1,
             detection_method := "protection_to_available", verified := false,
             created_at := now }]
      else db.reset_times := by
  unfold record_espionage_status
  by_cases h : resetDetected db nid avail = true
  · simp [h, insertStatusRow, insertResetRow]
  · simp [h, insertStatusRow, updateQueueNext]

/-- The status history after `record_espionage_status`: exactly one new
snapshot carrying the observed value, stamped `now`, with the next
AUTOINCREMENT rowid. -/
lemma record_status_history (db : DB) (nid : Int) (avail : Bool)
    (b v now : Int) :
    (record_espionage_status db nid avail b v now).1.espionage_status =
      db.espionage_status ++
        [{ rowid := db.next_status_rowid, nation_id := nid,
           espionage_available := avail, beige_turns := b,
           vacation_mode_turns := v, last_active := none,
           checked_at := now }] := by
  unfold record_espionage_status
  by_cases h : resetDetected db nid avail = true
  · simp [h, insertStatusRow, insertResetRow]
  · simp [h, insertStatusRow, updateQueueNext]

/-- The status rowid counter advances by one. -/
lemma record_status_rowid (db : DB) (nid : Int) (avail : Bool)
    (b v now : Int) :
    (record_espionage_status db nid avail b v now).1.next_status_rowid =
      db.next_status_rowid + 1 := by
  unfold record_espionage_status
  by_cases h : resetDetected db nid avail = true
  · simp [h, insertStatusRow, insertResetRow]
  · simp [h, insertStatusRow, updateQueueNext]

/-- The queue after a detecting run of `record_espionage_status` is
untouched (removal is the caller's job). -/
lemma record_queue_detected (db : DB) (nid : Int) (avail : Bool)
    (b v now : Int) (h : resetDetected db nid avail = true) :
    (record_espionage_status db nid avail b v now).1.monitoring_queue =
      db.monitoring_queue := by
  unfold record_espionage_status
  simp [h, insertStatusRow, insertResetRow]

/-- The queue after a non-detecting run of `record_espionage_status`: every
row of the nation is re-armed to `now + 21600`. -/
lemma record_queue_not_detected (db : DB) (nid : Int) (avail : Bool)
    (b v now : Int) (h : resetDetected db nid avail = false) :
    (record_espionage_status db nid avail b v now).1.monitoring_queue =
      db.monitoring_queue.map
        (fun q => if q.nation_id == nid
                  then { q with next_check := now + 21600 } else q) := by
  unfold record_espionage_status
  simp [h, insertStatusRow, updateQueueNext]

/-- A row that beats every element of a list is the maximum of the list with
the row appended. -/
lemma maxStatus_append (l : List StatusRow) (r : StatusRow)
    (h : ∀ x ∈ l, x.checked_at < r.checked_at ∨
      (x.checked_at = r.checked_at ∧ x.rowid < r.rowid)) :
    maxStatus (l ++ [r]) = some r := by
  induction l with
  | nil => simp [maxStatus]
  | cons x xs ih =>
    have hx := h x (by simp)
    have hrest := ih (fun y hy => h y (by simp [hy]))
    simp only [List.cons_append, maxStatus, List.append_eq, hrest]
    rw [if_pos]
    rcases hx with h1 | ⟨h1, h2⟩
    · exact Or.inl h1
    · exact Or.inr ⟨h1, le_of_lt h2⟩

/-- After `record_espionage_status`, the latest snapshot of the nation is
the one just inserted, provided the previous history respects the
AUTOINCREMENT counter and carries timestamps not after `now`. -/
lemma lastStatus_after_record (db : DB) (nid : Int) (avail : Bool)
    (b v now : Int)
    (hrow : ∀ x ∈ db.espionage_status, x.rowid < db.next_status_rowid)
    (ht : ∀ x ∈ db.espionage_status, x.checked_at ≤ now) :
    lastStatus (record_espionage_status db nid avail b v now).1 nid =
      some { rowid := db.next_status_rowid, nation_id := nid,
             espionage_available := avail, beige_turns := b,
             vacation_mode_turns := v, last_active := none,
             checked_at := now } := by
  unfold lastStatus
  rw [record_status_history, List.filter_append]
  have hone : List.filter (fun r => r.nation_id == nid)
      [({ rowid := db.next_status_rowid, nation_id := nid,
          espionage_available := avail, beige_turns := b,
          vacation_mode_turns := v, last_active := none,
          checked_at := now } : StatusRow)] =
      [{ rowid := db.next_status_rowid, nation_id := nid,
         espionage_available := avail, beige_turns := b,
         vacation_mode_turns := v, last_active := none,
         checked_at := now }] := by simp
  rw [hone]
  apply maxStatus_append
  intro x hx
  have hx' := (List.mem_filter.1 hx).1
  rcases lt_or_eq_of_le (ht x hx') with h1 | h1
  · exact Or.inl h1
  · exact Or.inr ⟨h1, hrow x hx'⟩

/-- `lastStatus` only looks at the status history. -/
lemma lastStatus_stop (db : DB) (nid nid2 : Int) :
    lastStatus (stop_monitoring_nation db nid2) nid = lastStatus db nid := rfl

/-!
## Claims
-/

/-- A concrete GraphQL nation object used in witnesses and counterexamples. -/
def mkApiNation (id : Int) (aid : Option Int) (avail : Option Bool)
    (beige vac : Option Int) : ApiNation :=
  { id := id, nation_name := "N", leader_name := none, alliance_id := aid,
    alliance_name := none, score := none, num_cities := none,
    espionage_available := avail, beige_turns := beige,
    vacation_mode_turns := vac, last_active := none }

/-- C1 counterexample: on the manual-check path
(`NationCollector.update_specific_nations`, reached from
`EspionageMonitor.manual_check_nation`), a first-ever observation with
protection available creates a ResetFact even though no prior snapshot
exists, contradicting the claim that a first-ever observation never creates
one on any recording path. -/
theorem C1_counterexample :
    emptyDB.espionage_status = [] ∧
    (updateSpecificStep emptyDB (mkApiNation 42 (some 1) (some true) none none)
        0).reset_times.length = 1 := by
  constructor
  · rfl
  · rfl

/-- C1 (amended): on the scheduled path
(`EspionageTracker.record_espionage_status`) a ResetFact is created iff the
latest stored snapshot exists with protection unavailable and the new
observation has protection available — so a first observation, true→true or
false→false never creates one there; on the manual-check path
(`NationCollector.update_specific_nations`) a ResetFact is created iff the
new observation reports protection available (defaulting to available when
the field is absent), regardless of any prior snapshot. -/
theorem C1_reset_fact_paths (db : DB) (nid : Int) (avail : Bool)
    (b v now : Int) (n : ApiNation) (now2 : Int) :
    ((record_espionage_status db nid avail b v now).2 = true ↔
      avail = true ∧ ∃ s, lastStatus db nid = some s ∧
        s.espionage_available = false) ∧
    ((record_espionage_status db nid avail b v now).1.reset_times.length =
      db.reset_times.length +
        (if (record_espionage_status db nid avail b v now).2 then 1 else 0)) ∧
    ((updateSpecificStep db n now2).reset_times.length =
      db.reset_times.length +
        (if n.espionage_available.getD true then 1 else 0)) := by
  refine ⟨?_, ?_, ?_⟩
  · rw [record_snd]
    exact resetDetected_iff db nid avail
  · rw [record_snd, record_reset_times]
    by_cases h : resetDetected db nid avail = true
    · simp [h]
    · simp [h]
  · unfold updateSpecificStep
    by_cases h : n.espionage_available.getD true = true
    · simp [h, record_reset_time, insertResetRow, deleteQueueRows,
        update_espionage_status, insertStatusRow]
    · simp [h, update_espionage_status, insertStatusRow]

/-- C2: the `monitoring_queue` schema keys its only uniqueness constraint on
the AUTOINCREMENT `id`, so the `INSERT OR REPLACE` of
`add_to_monitoring_queue` never replaces: enqueueing nation 7 twice leaves
two queue rows for nation 7, where the spec requires insert-or-replace
keyed by entity id. -/
theorem C2_duplicate_queue_rows :
    ((add_to_monitoring_queue
        (add_to_monitoring_queue emptyDB 7 "espionage_unavailable" 0)
        7 "espionage_unavailable" 100).monitoring_queue.filter
      (fun q => q.nation_id == 7)).length = 2 := by
  rfl

/-- Unfolding of `monitorCheckStep` on a successful fetch. -/
lemma monitorCheckStep_some (db : DB) (nid : Int) (s : StatusFetch)
    (now : Int) :
    monitorCheckStep db nid (some s) now =
      if (record_espionage_status db nid s.espionage_available
          (s.beige_turns.getD 0) (s.vacation_mode_turns.getD 0) now).2 = true
      then stop_monitoring_nation (record_espionage_status db nid
          s.espionage_available (s.beige_turns.getD 0)
          (s.vacation_mode_turns.getD 0) now).1 nid
      else (record_espionage_status db nid s.espionage_available
          (s.beige_turns.getD 0) (s.vacation_mode_turns.getD 0) now).1 := rfl

/-- C3: in the monitoring-cycle detection step
(`record_espionage_status` followed by `stop_monitoring_nation` on
detection, as `EspionageMonitor.monitoring_cycle` runs it), whenever a
ResetFact was recorded the entity has no monitoring-queue entry afterwards,
and running the same detection step again on the same observation creates
no second ResetFact. -/
theorem C3_detection_idempotent (db : DB) (nid : Int) (s : StatusFetch)
    (now now2 : Int)
    (hrow : ∀ x ∈ db.espionage_status, x.rowid < db.next_status_rowid)
    (ht : ∀ x ∈ db.espionage_status, x.checked_at ≤ now) :
    db.reset_times.length <
      (monitorCheckStep db nid (some s) now).reset_times.length →
    (∀ q ∈ (monitorCheckStep db nid (some s) now).monitoring_queue,
      q.nation_id ≠ nid) ∧
    (monitorCheckStep (monitorCheckStep db nid (some s) now) nid (some s)
        now2).reset_times.length =
      (monitorCheckStep db nid (some s) now).reset_times.length := by
  intro hgrow
  have hdet : resetDetected db nid s.espionage_available = true := by
    by_contra hne
    rw [Bool.not_eq_true] at hne
    have : (monitorCheckStep db nid (some s) now).reset_times.length =
        db.reset_times.length := by
      rw [monitorCheckStep_some, record_snd, hne]
      simp only [Bool.false_eq_true, if_false]
      rw [record_reset_times, hne]
      simp
    omega
  have havail : s.espionage_available = true :=
    ((resetDetected_iff db nid s.espionage_available).1 hdet).1
  have hstep : monitorCheckStep db nid (some s) now =
      stop_monitoring_nation (record_espionage_status db nid
        s.espionage_available (s.beige_turns.getD 0)
        (s.vacation_mode_turns.getD 0) now).1 nid := by
    rw [monitorCheckStep_some, record_snd, hdet]
    simp
  constructor
  · intro q hq
    rw [hstep] at hq
    unfold stop_monitoring_nation deleteQueueRows at hq
    simp only [List.mem_filter, bne_iff_ne, ne_eq] at hq
    exact hq.2
  · have hlast : lastStatus (monitorCheckStep db nid (some s) now) nid =
        some { rowid := db.next_status_rowid, nation_id := nid,
               espionage_available := s.espionage_available,
               beige_turns := s.beige_turns.getD 0,
               vacation_mode_turns := s.vacation_mode_turns.getD 0,
               last_active := none, checked_at := now } := by
      rw [hstep, lastStatus_stop]
      exact lastStatus_after_record db nid s.espionage_available
        (s.beige_turns.getD 0) (s.vacation_mode_turns.getD 0) now hrow ht
    have hdet2 : resetDetected (monitorCheckStep db nid (some s) now) nid
        s.espionage_available = false := by
      unfold resetDetected
      rw [hlast, havail]
      simp
    rw [monitorCheckStep_some, record_snd, hdet2]
    simp only [Bool.false_eq_true, if_false]
    rw [record_reset_times, hdet2]
    simp

/-- Concrete database for the C3 witness: one snapshot of nation 3 with
protection unavailable at time 0, and a queue row for nation 3. -/
def c3DB : DB :=
  add_to_monitoring_queue
    (update_espionage_status emptyDB 3
      { espionage_available := some false, beige_turns := none,
        vacation_mode_turns := none, last_active := none } 0)
    3 "espionage_unavailable" 0

/-- Concrete fetched status for the C3 witness: protection available. -/
def c3Fetch : StatusFetch :=
  { id := 3, espionage_available := true, beige_turns := none,
    vacation_mode_turns := none }

/-- C3 witness: the detection step at nation 3 on `c3DB` creates a fact,
clears the queue of nation 3, and a second run adds no fact. -/
theorem C3_witness :
    (∀ q ∈ (monitorCheckStep c3DB 3 (some c3Fetch) 10).monitoring_queue,
      q.nation_id ≠ 3) ∧
    (monitorCheckStep (monitorCheckStep c3DB 3 (some c3Fetch) 10) 3
        (some c3Fetch) 20).reset_times.length =
      (monitorCheckStep c3DB 3 (some c3Fetch) 10).reset_times.length :=
  C3_detection_idempotent c3DB 3 c3Fetch 10 20 (by decide) (by decide)
    (by decide)

/-- The 100-nation page of the C4 scenario: 60 nations without a group id,
30 group members not on hiatus, 10 group members on hiatus. -/
def c4Page : List ApiNation :=
  ((List.range 60).map (fun i =>
      mkApiNation ((i : Int) + 1) none none none none)) ++
  ((List.range 30).map (fun i =>
      mkApiNation ((i : Int) + 61) (some 1) none none none)) ++
  ((List.range 10).map (fun i =>
      mkApiNation ((i : Int) + 91) (some 1) none none (some 3)))

/-- A hiatus nation that is a group member, used for the C4 counterexample:
`vacation_mode_turns = 5`, protection unavailable. -/
def c4BadNation : ApiNation :=
  mkApiNation 8 (some 1) (some false) none (some 5)

/-- C4 counterexample: the collector path
(`NationCollector.collect_all_alliance_nations`, cited by the claim) upserts
a group-member nation that is on hiatus into the entity store and even
enqueues it (reason `vacation_mode`), contradicting the claim that during
indexing a hiatus entity is never upserted nor enqueued. -/
theorem C4_counterexample :
    c4BadNation.vacation_mode_turns.getD 0 > 0 ∧
    (collectPage emptyDB [c4BadNation] 0).nations.length = 1 ∧
    (collectPage emptyDB [c4BadNation] 0).monitoring_queue.length = 1 := by
  refine ⟨by decide, rfl, rfl⟩

/-- C4 (amended): in the indexer (`EspionageMonitor.index_all_nations`) a
nation whose group id is falsy or whose hiatus turns exceed 0 is never
upserted nor enqueued (the state is returned unchanged and the nation is
not admitted), and the scenario page of 100 nations — 40 with a group id,
10 of those on hiatus — yields a total-seen count of 100 and an admitted
count of 30; the collector path
(`NationCollector.collect_all_alliance_nations`), by contrast, admits
group-member hiatus nations. -/
theorem C4_indexer_filters (db : DB) (n : ApiNation) (now : Int)
    (h : n.alliance_id = none ∨ n.alliance_id = some 0 ∨
      n.vacation_mode_turns.getD 0 > 0) :
    indexNationStep db n now = (db, false) ∧
    (indexPage emptyDB c4Page 0).2 = (100, 30) := by
  constructor
  · unfold indexNationStep
    rcases h with h | h | h
    · rw [h]
    · rw [h]
      simp
    · cases ha : n.alliance_id with
      | none => rfl
      | some aid =>
        by_cases h0 : aid == 0
        · simp [h0]
        · simp only [h0, if_false, Bool.false_eq_true]
          rw [if_pos h]
  · rfl

/-- C4 witness: a hiatus nation in a group is skipped by the indexer. -/
theorem C4_witness :
    indexNationStep emptyDB (mkApiNation 8 (some 1) none none (some 3)) 0 =
      (emptyDB, false) ∧
    (indexPage emptyDB c4Page 0).2 = (100, 30) :=
  C4_indexer_filters emptyDB (mkApiNation 8 (some 1) none none (some 3)) 0
    (Or.inr (Or.inr (by decide)))

/-- C6: when an observation is recorded for a queued entity and no reset is
detected, the entity's queue row is re-armed to exactly `now` plus the
fixed 6-hour delay, which strictly exceeds its previous (due) next-check
time. -/
theorem C6_rearm_monotone (db : DB) (nid : Int) (avail : Bool)
    (b v now : Int) (q : QueueRow)
    (hq : q ∈ db.monitoring_queue) (hid : q.nation_id = nid)
    (hdue : q.next_check ≤ now)
    (hnd : (record_espionage_status db nid avail b v now).2 = false) :
    ∃ q2 ∈ (record_espionage_status db nid avail b v now).1.monitoring_queue,
      q2.rowid = q.rowid ∧ q2.next_check = now + 21600 ∧
      q.next_check < q2.next_check := by
  rw [record_snd] at hnd
  rw [record_queue_not_detected db nid avail b v now hnd]
  refine ⟨{ q with next_check := now + 21600 }, ?_,  rfl, rfl,
    by show q.next_check < now + 21600; omega⟩
  have heq : (fun r => if r.nation_id == nid
      then { r with next_check := now + 21600 } else r) q =
      { q with next_check := now + 21600 } := by
    simp [hid]
  exact heq ▸ List.mem_map_of_mem _ hq

/-- C6 witness: nation 3's due queue row on `c3DB` is re-armed to
`10 + 21600` by a non-detecting observation (still unavailable). -/
theorem C6_witness :
    ∃ q2 ∈ (record_espionage_status c3DB 3 false 0 0 8000).1.monitoring_queue,
      q2.rowid = 1 ∧ q2.next_check = 8000 + 21600 ∧
      (7200 : Int) < q2.next_check := by
  have h := C6_rearm_monotone c3DB 3 false 0 0 8000
    { rowid := 1, nation_id := 3, reason := "espionage_unavailable",
      added_at := 0, next_check := 7200, priority := 1 }
    (by decide) (by decide) (by decide) (by decide)
  obtain ⟨q2, hmem, hrow, hnext, hlt⟩ := h
  exact ⟨q2, hmem, hrow, hnext, hlt⟩

/-- C5: `get_nations_to_monitor` (the `dueEntries` query, `LIMIT 50`)
returns exactly the projections of queue entries due at `now` — each
returned item stems from a due entry, every due entry is returned when at
most 50 are due — ordered by priority descending then next-check ascending
and capped at 50, assuming every queue entry's nation exists (the inner
join). -/
theorem C5_due_entries (db : DB) (now : Int)
    (hjoin : ∀ q ∈ db.monitoring_queue, nationJoin db q.nation_id = true) :
    (get_nations_to_monitor db now).length =
      min 50 ((db.monitoring_queue.filter
        (fun q => decide (q.next_check ≤ now))).length) ∧
    List.Sorted queueOrder ((dueSorted db now nationJoin).take 50) ∧
    (∀ it ∈ get_nations_to_monitor db now, ∃ q ∈ db.monitoring_queue,
      q.next_check ≤ now ∧
      it = { nation_id := q.nation_id,
             nation_name := joinedName db q.nation_id,
             reason := q.reason, next_check := q.next_check }) ∧
    ((db.monitoring_queue.filter
        (fun q => decide (q.next_check ≤ now))).length ≤ 50 →
      ∀ q ∈ db.monitoring_queue, q.next_check ≤ now →
        ({ nation_id := q.nation_id,
           nation_name := joinedName db q.nation_id,
           reason := q.reason, next_check := q.next_check } : MonitorItem) ∈
          get_nations_to_monitor db now) := by
  have hfe : db.monitoring_queue.filter
      (fun q => decide (q.next_check ≤ now) && nationJoin db q.nation_id) =
      db.monitoring_queue.filter (fun q => decide (q.next_check ≤ now)) :=
    List.filter_congr (fun q hq => by rw [hjoin q hq, Bool.and_true])
  refine ⟨?_, ?_, ?_, ?_⟩
  · unfold get_nations_to_monitor dueSorted
    rw [List.length_map, List.length_take, hfe, List.length_insertionSort]
  · exact (List.sorted_insertionSort queueOrder _).sublist
      (List.take_sublist 50 _)
  · intro it hit
    obtain ⟨q, hqtake, hproj⟩ := List.mem_map.1 hit
    have hq1 : q ∈ dueSorted db now nationJoin :=
      (List.take_sublist 50 _).mem hqtake
    have hq2 := (List.mem_insertionSort queueOrder).1 hq1
    have hq3 := List.mem_filter.1 hq2
    have hq4 := hq3.2
    rw [Bool.and_eq_true] at hq4
    exact ⟨q, hq3.1, of_decide_eq_true hq4.1, hproj.symm⟩
  · intro hle q hq hdue
    have hlen : (dueSorted db now nationJoin).length ≤ 50 := by
      unfold dueSorted
      rw [hfe, List.length_insertionSort]
      exact hle
    unfold get_nations_to_monitor
    rw [List.take_of_length_le hlen]
    apply List.mem_map_of_mem
    apply (List.mem_insertionSort queueOrder).2
    exact List.mem_filter.2 ⟨hq, by simp [hdue, hjoin q hq]⟩

/-- The 120 overdue queue rows of the C5 witness. -/
def c5Queue : List QueueRow :=
  (List.range 120).map (fun i =>
    { rowid := i + 1, nation_id := (i : Int) + 1, reason := "r",
      added_at := 0, next_check := (i : Int), priority := 1 })

/-- Matching nation rows for the C5 witness join. -/
def c5Nations : List Nation :=
  (List.range 120).map (fun i =>
    { id := (i : Int) + 1, nation_name := "n", leader_name := none,
      alliance_id := some 1, alliance_name := none, score := none,
      cities := none, last_updated := 0, is_active := true })

/-- Database with 120 overdue monitored nations for the C5 witness. -/
def c5DB : DB :=
  { nations := c5Nations, espionage_status := [], reset_times := [],
    monitoring_queue := c5Queue, next_status_rowid := 1,
    next_reset_rowid := 1, next_queue_rowid := 121 }

set_option maxRecDepth 100000 in
/-- C5 witness: with 120 overdue entries the due query returns exactly
50 items. -/
theorem C5_witness : (get_nations_to_monitor c5DB 1000).length = 50 := by
  have h := C5_due_entries c5DB 1000 (by decide)
  exact h.1.trans (by decide)

/-- C7: `cleanup_monitoring_queue` (the `purgeStale` operation) removes a
queue entry exactly when its nation row is inactive or has no alliance id
or the nation already has a reset fact; every surviving entry was present
before, and the other three relations are untouched.  The nation rows are
assumed unique per id (the `nations` PRIMARY KEY). -/
theorem C7_purge_stale (db : DB)
    (hpk : ∀ n1 ∈ db.nations, ∀ n2 ∈ db.nations, n1.id = n2.id → n1 = n2) :
    ((cleanup_monitoring_queue db).1.nations = db.nations ∧
     (cleanup_monitoring_queue db).1.espionage_status = db.espionage_status ∧
     (cleanup_monitoring_queue db).1.reset_times = db.reset_times) ∧
    (∀ q ∈ (cleanup_monitoring_queue db).1.monitoring_queue,
      q ∈ db.monitoring_queue) ∧
    (∀ q ∈ db.monitoring_queue, ∀ n ∈ db.nations, n.id = q.nation_id →
      (q ∈ (cleanup_monitoring_queue db).1.monitoring_queue ↔
        ¬(n.is_active = false ∨ n.alliance_id = none ∨
          ∃ r ∈ db.reset_times, r.nation_id = q.nation_id))) := by
  refine ⟨⟨rfl, rfl, rfl⟩, ?_, ?_⟩
  · intro q hq
    unfold cleanup_monitoring_queue at hq
    simp only [List.mem_filter] at hq
    exact hq.1.1
  · intro q hq n hn hid
    have hany2 : db.reset_times.any
        (fun r => r.nation_id == q.nation_id) = true ↔
        ∃ r ∈ db.reset_times, r.nation_id = q.nation_id := by
      rw [List.any_eq_true]
      simp
    have hany1 : db.nations.any
        (fun m => m.id == q.nation_id &&
          (m.alliance_id.isNone || m.is_active == false)) = true ↔
        (n.alliance_id = none ∨ n.is_active = false) := by
      rw [List.any_eq_true]
      constructor
      · rintro ⟨m, hm, hpred⟩
        rw [Bool.and_eq_true] at hpred
        have hmn : m = n :=
          hpk m hm n hn (by rw [beq_iff_eq.1 hpred.1, hid])
        subst hmn
        have h2 := hpred.2
        rw [Bool.or_eq_true] at h2
        rcases h2 with h2 | h2
        · exact Or.inl (Option.isNone_iff_eq_none.1 h2)
        · exact Or.inr (beq_iff_eq.1 h2)
      · intro hd
        refine ⟨n, hn, ?_⟩
        rw [Bool.and_eq_true]
        refine ⟨beq_iff_eq.2 hid, ?_⟩
        rw [Bool.or_eq_true]
        rcases hd with hd | hd
        · exact Or.inl (Option.isNone_iff_eq_none.2 hd)
        · exact Or.inr (beq_iff_eq.2 hd)
    unfold cleanup_monitoring_queue
    simp only [List.mem_filter, Bool.not_eq_true']
    constructor
    · rintro ⟨⟨_, hp1⟩, hp2⟩
      rintro (hA | hB | hC)
      · exact absurd ((hany1.2 (Or.inr hA)).symm.trans hp1) (by decide)
      · exact absurd ((hany1.2 (Or.inl hB)).symm.trans hp1) (by decide)
      · exact absurd ((hany2.2 hC).symm.trans hp2) (by decide)
    · intro hnot
      push_neg at hnot
      obtain ⟨hA, hB, hC⟩ := hnot
      refine ⟨⟨hq, ?_⟩, ?_⟩
      · apply Bool.eq_false_iff.2
        intro hx
        rcases hany1.1 hx with h | h
        · exact hB h
        · exact hA h
      · apply Bool.eq_false_iff.2
        intro hx
        obtain ⟨r, hr, hr2⟩ := hany2.1 hx
        exact hC r hr hr2

/-- Four nation rows for the C7 witness: active member, inactive, no
alliance, and a member with a reset fact. -/
def c7DB : DB :=
  { nations :=
      [{ id := 1, nation_name := "a", leader_name := none,
         alliance_id := some 9, alliance_name := none, score := none,
         cities := none, last_updated := 0, is_active := true },
       { id := 2, nation_name := "b", leader_name := none,
         alliance_id := some 9, alliance_name := none, score := none,
         cities := none, last_updated := 0, is_active := false },
       { id := 3, nation_name := "c", leader_name := none,
         alliance_id := none, alliance_name := none, score := none,
         cities := none, last_updated := 0, is_active := true },
       { id := 4, nation_name := "d", leader_name := none,
         alliance_id := some 9, alliance_name := none, score := none,
         cities := none, last_updated := 0, is_active := true }],
    espionage_status := [],
    reset_times :=
      [{ rowid := 1, nation_id := 4, reset_time := 7,
         confidence_level := 1, detection_method := "protection_to_available",
         verified := false, created_at := 7 }],
    monitoring_queue :=
      [{ rowid := 1, nation_id := 1, reason := "r", added_at := 0,
         next_check := 5, priority := 1 },
       { rowid := 2, nation_id := 2, reason := "r", added_at := 0,
         next_check := 5, priority := 1 },
       { rowid := 3, nation_id := 3, reason := "r", added_at := 0,
         next_check := 5, priority := 1 },
       { rowid := 4, nation_id := 4, reason := "r", added_at := 0,
         next_check := 5, priority := 1 }],
    next_status_rowid := 1, next_reset_rowid := 2, next_queue_rowid := 5 }

/-- Queue row of nation 1 in `c7DB`. -/
def c7Entry1 : QueueRow :=
  { rowid := 1, nation_id := 1, reason := "r", added_at := 0,
    next_check := 5, priority := 1 }

/-- Queue row of nation 2 in `c7DB`. -/
def c7Entry2 : QueueRow :=
  { rowid := 2, nation_id := 2, reason := "r", added_at := 0,
    next_check := 5, priority := 1 }

/-- Nation row 1 of `c7DB` (active alliance member, no reset fact). -/
def c7Nation1 : Nation :=
  { id := 1, nation_name := "a", leader_name := none,
    alliance_id := some 9, alliance_name := none, score := none,
    cities := none, last_updated := 0, is_active := true }

/-- Nation row 2 of `c7DB` (inactive). -/
def c7Nation2 : Nation :=
  { id := 2, nation_name := "b", leader_name := none,
    alliance_id := some 9, alliance_name := none, score := none,
    cities := none, last_updated := 0, is_active := false }

/-- C7 witness: on `c7DB`, cleanup keeps the entry of the active member
without reset fact and drops the entry of the inactive nation. -/
theorem C7_witness :
    c7Entry1 ∈ (cleanup_monitoring_queue c7DB).1.monitoring_queue ∧
    c7Entry2 ∉ (cleanup_monitoring_queue c7DB).1.monitoring_queue := by
  have h := C7_purge_stale c7DB (by decide)
  constructor
  · exact (h.2.2 c7Entry1 (by decide) c7Nation1 (by decide) (by decide)).2
      (by decide)
  · intro hmem
    have h2 := (h.2.2 c7Entry2 (by decide) c7Nation2 (by decide)
      (by decide)).1 hmem
    exact h2 (Or.inl rfl)

/-- C8: every status query is a total function of the state, and on the
freshly initialised (empty) database each returns its zeroed or empty
default — the stats queries return all-zero counters, the reset-time
listings and due-entry listings return empty lists, and the reset report
returns zero totals with an empty histogram and no detections — rather
than failing. -/
theorem C8_queries_total_defaults :
    get_stats emptyDB 0 =
      { total_nations := 0, monitoring_count := 0,
        reset_times_detected := 0, recent_checks_24h := 0 } ∧
    get_database_stats emptyDB 0 =
      { total_nations := 0, monitoring_count := 0,
        reset_times_detected := 0, recent_checks_24h := 0,
        unique_nations_with_resets := 0 } ∧
    get_nation_reset_times emptyDB none = [] ∧
    get_nation_reset_times emptyDB (some 5) = [] ∧
    get_nations_to_monitor emptyDB 0 = [] ∧
    get_nations_needing_monitoring emptyDB 0 = [] ∧
    get_monitoring_stats emptyDB false none 0 =
      { total_nations := 0, monitoring_count := 0,
        reset_times_detected := 0, recent_checks_24h := 0,
        is_running := false, last_full_scan := none,
        next_monitoring_cycle := 7200, next_full_rescan := 86400 } ∧
    get_reset_time_report emptyDB none =
      { total_reset_times_detected := 0, unique_nations_with_resets := 0,
        hourly_distribution := [], recent_detections := [] } := by
  refine ⟨rfl, rfl, rfl, rfl, rfl, rfl, rfl, rfl⟩

/-- C9: each mutating store operation runs as one transaction whose commit
is the last step; a run that fails at any point returns the failure marker
`false` and leaves the persisted state unchanged (the `with`-block rolls the
scratch state back), while a completed run commits exactly the operation's
effect and returns `true`. -/
theorem C9_mutations_atomic (db : DB) (failAt : Option Nat) (d : NationData)
    (nid t now : Int) (sd : StatusData) (reason method : String) :
    (∀ stmts : List Stmt, (runTxn db stmts failAt).2 = false →
      (runTxn db stmts failAt).1 = db) ∧
    runTxn db (addNationStmts d now) none = (add_nation db d now, true) ∧
    runTxn db (updateEspionageStatusStmts nid sd now) none =
      (update_espionage_status db nid sd now, true) ∧
    runTxn db (addToMonitoringQueueStmts nid reason now) none =
      (add_to_monitoring_queue db nid reason now, true) ∧
    runTxn db (recordResetTimeStmts nid t method now) none =
      (record_reset_time db nid t method now, true) ∧
    runTxn db (stopMonitoringStmts nid) none =
      (stop_monitoring_nation db nid, true) := by
  refine ⟨?_, rfl, rfl, rfl, rfl, rfl⟩
  intro stmts hfail
  unfold runTxn at *
  cases h : runStmts db stmts failAt with
  | none => rfl
  | some db2 =>
    rw [h] at hfail
    cases hfail

/-- Concrete nation data for the C9 witness. -/
def c9Nation : NationData :=
  { id := 11, nation_name := "w", leader_name := none,
    alliance_id := some 2, alliance_name := none, score := none,
    num_cities := none }

/-- C9 witness: a failing `add_nation` transaction on the empty database
returns `false` and leaves the state empty, while the completed transaction
commits `add_nation`'s effect. -/
theorem C9_witness :
    (runTxn emptyDB (addNationStmts c9Nation 0) (some 0)).1 = emptyDB ∧
    runTxn emptyDB (addNationStmts c9Nation 0) none =
      (add_nation emptyDB c9Nation 0, true) := by
  have h := C9_mutations_atomic emptyDB (some 0) c9Nation 11 0 0
    { espionage_available := none, beige_turns := none,
      vacation_mode_turns := none, last_active := none } "r" "m"
  exact ⟨h.1 (addNationStmts c9Nation 0) rfl, h.2.1⟩

/-- C10: a recording path receiving an observation with the
protection-available field absent treats it exactly as an explicit `true`:
`update_espionage_status` and the manual-check step produce states
indistinguishable from the explicit-`true` observation, the stored snapshot
carries `true` (so it can complete a false→true pair over a prior
unavailable snapshot, which the detector recognises), and the manual-check
step records a reset fact for it. -/
theorem C10_absent_field_defaults_true (db : DB) (nid : Int)
    (sd : StatusData) (n : ApiNation) (now : Int)
    (hsd : sd.espionage_available = none)
    (hn : n.espionage_available = none) :
    update_espionage_status db nid sd now =
      update_espionage_status db nid
        { sd with espionage_available := some true } now ∧
    updateSpecificStep db n now =
      updateSpecificStep db { n with espionage_available := some true } now ∧
    (update_espionage_status db nid sd now).espionage_status =
      db.espionage_status ++
        [{ rowid := db.next_status_rowid, nation_id := nid,
           espionage_available := true, beige_turns := sd.beige_turns.getD 0,
           vacation_mode_turns := sd.vacation_mode_turns.getD 0,
           last_active := sd.last_active, checked_at := now }] ∧
    (∀ s, lastStatus db nid = some s → s.espionage_available = false →
      resetDetected db nid (sd.espionage_available.getD true) = true) ∧
    (updateSpecificStep db n now).reset_times.length =
      db.reset_times.length + 1 := by
  refine ⟨?_, ?_, ?_, ?_, ?_⟩
  · unfold update_espionage_status
    rw [hsd]
    rfl
  · unfold updateSpecificStep
    rw [hn]
    rfl
  · unfold update_espionage_status insertStatusRow
    rw [hsd]
    rfl
  · intro s hs hf
    rw [hsd]
    unfold resetDetected
    rw [hs]
    simp [hf]
  · unfold updateSpecificStep
    rw [hn]
    simp [record_reset_time, insertResetRow, deleteQueueRows,
      update_espionage_status, insertStatusRow]

/-- C10 witness: recording nation 3 on `c3DB` (whose latest snapshot is
unavailable) with the availability field absent equals recording an
explicit `true`, stores an available snapshot, arms the detector, and the
manual-check step records a fact. -/
theorem C10_witness :
    update_espionage_status c3DB 3
        { espionage_available := none, beige_turns := none,
          vacation_mode_turns := none, last_active := none } 9 =
      update_espionage_status c3DB 3
        { espionage_available := some true, beige_turns := none,
          vacation_mode_turns := none, last_active := none } 9 ∧
    resetDetected c3DB 3 true = true ∧
    (updateSpecificStep c3DB (mkApiNation 3 (some 1) none none none)
        9).reset_times.length = c3DB.reset_times.length + 1 := by
  have h := C10_absent_field_defaults_true c3DB 3
    { espionage_available := none, beige_turns := none,
      vacation_mode_turns := none, last_active := none }
    (mkApiNation 3 (some 1) none none none) 9 rfl rfl
  refine ⟨h.1, ?_, h.2.2.2.2⟩
  have h4 := h.2.2.2.1
  have hs : lastStatus c3DB 3 =
      some { rowid := 1, nation_id := 3, espionage_available := false,
             beige_turns := 0, vacation_mode_turns := 0,
             last_active := none, checked_at := 0 } := by decide
  exact h4 _ hs rfl

end SpyV2
